import Mathlib

/-!
# A verification development for the ARnft session orchestrator (src/src/ARnft.ts)

Shallow embedding of the `ARnft` class.  JavaScript numbers are modelled as
`JSNum` (a rational together with the special values Infinity, -Infinity and
NaN); fields that are `undefined` until first assignment are modelled as
`Option`; operations that can throw return `Except JsError`; the observable
calls the orchestrator makes into its collaborators (Container, Stats,
CameraViewRenderer, NFTWorker, requestAnimationFrame, console) are recorded
as a trace of `Effect`s.

The asynchronous structure of `_initialize` is modelled in two phases,
mirroring the JavaScript event-loop behaviour of the source:

* `initSequenceSync`: the part of `_initialize` that runs synchronously when
  `init` / `initWithEntities` is called - dispatch of the "initARnft" event,
  the `getConfig` request, registration of the "getConfig" listener, and the
  final `return Promise.resolve(this)`.  The promise returned by `init`
  settles here.
* `listenerRun`: the body of the async "getConfig" listener, which runs only
  later, when the config-ready event fires.  Its external inputs are the
  config payload carried by the event, whether `CameraViewRenderer.initialize`
  resolves (`camOk`), and the current video frame returned by
  `cameraView.getImage()` (`img`).
-/

/-- A JavaScript number: a finite rational or one of the special values.
(The sign of zero is not tracked; it is irrelevant to the claims here.) -/
inductive JSNum where
  | num : ℚ → JSNum
  | posInf : JSNum
  | negInf : JSNum
  | nan : JSNum
deriving DecidableEq, Repr

/-- JavaScript division, restricted to the behaviours reachable from the
source: division never throws; a positive finite number divided by zero is
Infinity, by a negative finite number a negative finite number, etc. -/
def jsDiv : JSNum → JSNum → JSNum
  | .nan, _ => .nan
  | _, .nan => .nan
  | .num a, .num b =>
      if b = 0 then (if a = 0 then .nan else if 0 < a then .posInf else .negInf)
      else .num (a / b)
  | .num _, .posInf => .num 0
  | .num _, .negInf => .num 0
  | .posInf, .num b => if 0 ≤ b then .posInf else .negInf
  | .negInf, .num b => if 0 ≤ b then .negInf else .posInf
  | .posInf, _ => .nan
  | .negInf, _ => .nan

/-- The only exception the modelled code can raise: a `TypeError` from a
property access on `undefined`. -/
inductive JsError where
  | typeError : JsError
deriving DecidableEq, Repr

/-- `interface Entity { name: string; markerUrl: string }` from the source. -/
structure Entity where
  name : String
  markerUrl : String
deriving DecidableEq, Repr

/-- The argument tuple of `new NFTWorker(markerUrl, width, height, uuid, name)`
as issued by `_initialize`.  `name` is an `Option` because the source reads
`names[index]`, which is `undefined` when `names` is shorter than
`markerUrls`. -/
structure WorkerCtor where
  markerUrl : String
  width : ℚ
  height : ℚ
  uuid : String
  name : Option String
deriving DecidableEq, Repr

/-- The fields of the config object that `_initialize` reads
(`appData.stats.createHtml`, `appData.videoSettings`, `appData.cameraPara`);
the values are opaque to the orchestrator and modelled as strings. -/
structure ConfigData where
  videoSettings : String
  cameraPara : String
  statsCreateHtml : Bool
deriving DecidableEq, Repr

/-- One observable call made by the orchestrator into a collaborator. -/
inductive Effect where
  | dispatchInitEvent
  | consoleLog
  | consoleError
  | getConfigRequest (url : String)
  | addConfigListener
  | createContainer
  | createLoading
  | createStats (createHtml : Bool)
  | statsPanelSetup
  | constructCamera
  | cameraInit
  | constructWorker (w : WorkerCtor)
  | workerInit (i : ℕ)
  | workerProcess (i : ℕ) (frame : String)
  | loopStart (i : ℕ)
  | scheduleFrame (i : ℕ)
  | cameraDestroy
  | stopNFT
deriving DecidableEq, Repr

/-- The instance fields of the `ARnft` class that the modelled methods touch.
`controllers`, `cameraView` and `appData` are `undefined` (`none`) until the
config-ready listener assigns them. -/
structure ARnftInst where
  width : ℚ
  height : ℚ
  configUrl : String
  uuid : String
  fps : JSNum
  controllers : Option (List WorkerCtor)
  cameraView : Option Unit
  appData : Option ConfigData
deriving DecidableEq, Repr

/-- The static (class-level, process-wide) state: the `entities` field shared
by every `ARnft` instance; `undefined` until `initWithEntities` first runs. -/
structure StaticSt where
  entities : Option (List Entity)
deriving DecidableEq, Repr

/-- The static state of a process in which `initWithEntities` has never been
called: `ARnft.entities` is `undefined`. -/
def initialStatic : StaticSt := ⟨none⟩

namespace ARnft

/-- `new ARnft(width, height, configUrl)`: stores the dimensions and config
locator, draws a fresh uuid (a parameter of the model), and sets the default
fps of 15 via `setFPS`, i.e. `fps = 1000 / 15`. -/
def new (width height : ℚ) (configUrl uuid : String) : ARnftInst :=
  { width := width, height := height, configUrl := configUrl, uuid := uuid,
    fps := jsDiv (.num 1000) (.num 15),
    controllers := none, cameraView := none, appData := none }

/-- `setFPS(value)`: `this._fps = 1000 / value`.  Division never throws in
JavaScript, so the result is always `.ok`. -/
def setFPS (s : ARnftInst) (value : JSNum) : Except JsError ARnftInst :=
  .ok { s with fps := jsDiv (.num 1000) value }

/-- `getEntities()`: returns the static `entities` field. -/
def getEntities (ss : StaticSt) : Option (List Entity) :=
  ss.entities

/-- `disposeNFT()`: the body is the single static call `NFTWorker.stopNFT()`;
it reads and writes no instance field and cannot throw. -/
def disposeNFT (s : ARnftInst) : Except JsError (ARnftInst × List Effect) :=
  .ok (s, [Effect.stopNFT])

/-- `disposeVideoStream()`: `this.cameraView.destroy()`.  When `cameraView`
is still `undefined` (the config-ready listener has not run), the property
access throws a `TypeError`. -/
def disposeVideoStream (s : ARnftInst) : Except JsError (ARnftInst × List Effect) :=
  match s.cameraView with
  | none => .error JsError.typeError
  | some _ => .ok (s, [Effect.cameraDestroy])

/-- `dispose()`: `this.disposeVideoStream(); this.disposeNFT();` in that
order; an exception in the first call aborts before the second. -/
def dispose (s : ARnftInst) : Except JsError (ARnftInst × List Effect) := do
  let (s1, t1) ← disposeVideoStream s
  let (s2, t2) ← disposeNFT s1
  .ok (s2, t1 ++ t2)

end ARnft

/-- What the promise returned by `init` / `initWithEntities` settles to. -/
inductive PromiseResult where
  | resolved (inst : ARnftInst)
  | rejectedFalse
deriving DecidableEq, Repr

/-- Outcome of the async config-ready listener callback.  Its returned promise
is discarded by `addEventListener`, so `rejectedFalse` is an unhandled
rejection, invisible to the caller of `init`. -/
inductive ListenerOutcome where
  | fulfilled
  | rejectedFalse
deriving DecidableEq, Repr

/-- Result of the synchronous phase of `_initialize` (lines 161-217): effects
issued before returning, and the value the returned promise settles to. -/
structure PhaseA where
  trace : List Effect
  result : PromiseResult
deriving DecidableEq, Repr

/-- Result of one firing of the config-ready listener: effects issued, the
instance state afterwards, and how the listener callback settled. -/
structure PhaseB where
  trace : List Effect
  inst : ARnftInst
  outcome : ListenerOutcome
deriving DecidableEq, Repr

/-- Everything `init` / `initWithEntities` leaves behind: the updated static
state, the settled promise (`phaseA`), and the data captured by the registered
config-ready listener closure (the instance plus the `markerUrls`, `names`
and `stats` arguments). -/
structure InitReturn where
  staticSt : StaticSt
  phaseA : PhaseA
  inst : ARnftInst
  listenerMarkerUrls : List String
  listenerNames : List String
  listenerStats : Bool
deriving DecidableEq, Repr

namespace ARnft

/-- Modelled from the spec: `getConfig` (the Config Loader Adapter,
src/utils/ARnftUtils.ts, whose body is not under src/), called at
ARnft.ts line 167.  Per spec sections 2 and 4 it issues an asynchronous
fetch for the configuration resource and signals completion later via a
"getConfig" event; it neither throws nor dispatches synchronously, so
within the synchronous phase it contributes only the request effect. -/
def getConfigCall (url : String) : List Effect :=
  [Effect.getConfigRequest url]

/-- The synchronous part of `_initialize`: dispatch "initARnft", log, issue
`getConfig(this.configUrl)`, register the "getConfig" listener, and return
`Promise.resolve(this)`.  No await occurs before the return, so the promise
settles (resolved with the instance) before the listener can ever fire. -/
def initSequenceSync (inst : ARnftInst) : PhaseA :=
  { trace := [Effect.dispatchInitEvent, Effect.consoleLog] ++
      getConfigCall inst.configUrl ++ [Effect.addConfigListener],
    result := .resolved inst }

/-- `static async init(width, height, markerUrls, names, configUrl, stats)`:
constructs a fresh `ARnft` and runs `_initialize`; the `.catch` on the result
is dead on this path because `_initialize`'s synchronous body does not throw.
The static `entities` field is untouched. -/
def init (width height : ℚ) (markerUrls names : List String)
    (configUrl : String) (stats : Bool) (uuid : String) (ss : StaticSt) : InitReturn :=
  let inst := ARnft.new width height configUrl uuid
  { staticSt := ss, phaseA := initSequenceSync inst, inst := inst,
    listenerMarkerUrls := markerUrls, listenerNames := names,
    listenerStats := stats }

/-- `static async initWithEntities(width, height, entities, configUrl, stats)`:
constructs a fresh `ARnft`, overwrites the static `entities` field with the
argument, projects `markerUrls` and `names` out of `this.entities`, and runs
`_initialize` exactly as `init` does. -/
def initWithEntities (width height : ℚ) (entities : List Entity)
    (configUrl : String) (stats : Bool) (uuid : String) (_ss : StaticSt) : InitReturn :=
  let inst := ARnft.new width height configUrl uuid
  let markerUrls := entities.map (fun e => e.markerUrl)
  let names := entities.map (fun e => e.name)
  { staticSt := { entities := some entities },
    phaseA := initSequenceSync inst, inst := inst,
    listenerMarkerUrls := markerUrls, listenerNames := names,
    listenerStats := stats }

/-- The effects of one iteration of the `markerUrls.forEach` body (source
lines 192-214) for index `i` and url `mu`: construct the `NFTWorker`, call
its `initialize`, one priming `process(this.cameraView.getImage())` call,
then invoke `update()` - which processes the current frame once more and
schedules itself via `requestAnimationFrame`. -/
def sessionStartupSeg (w h : ℚ) (uuid img : String) (names : List String)
    (i : ℕ) (mu : String) : List Effect :=
  [Effect.constructWorker ⟨mu, w, h, uuid, names[i]?⟩,
   Effect.workerInit i,
   Effect.workerProcess i img,
   Effect.loopStart i,
   Effect.workerProcess i img,
   Effect.scheduleFrame i]

/-- The whole `markerUrls.forEach` loop starting at index `k`: the effect
trace and the `controllers` array built up by the `push` calls, in order. -/
def sessionsLoop (w h : ℚ) (uuid img : String) (names : List String) :
    ℕ → List String → List Effect × List WorkerCtor
  | _, [] => ([], [])
  | k, mu :: rest =>
      let tail := sessionsLoop w h uuid img names (k + 1) rest
      (sessionStartupSeg w h uuid img names k mu ++ tail.1,
       ⟨mu, w, h, uuid, names[k]?⟩ :: tail.2)

/-- The body of the async "getConfig" listener (source lines 168-216), run
when the config-ready event fires carrying `cfg`.  `camOk` is whether
`cameraView.initialize` resolves; `img` is the frame `getImage()` returns.
On camera rejection the `.catch` handler logs and returns a rejected promise,
so the `await` throws `false` out of the listener callback before the
`forEach` runs: no worker is constructed and `controllers` stays `[]`. -/
def listenerRun (inst0 : ARnftInst) (markerUrls names : List String)
    (stats : Bool) (cfg : ConfigData) (camOk : Bool) (img : String) : PhaseB :=
  let inst1 := { inst0 with appData := some cfg }
  let preTrace := [Effect.createContainer, Effect.createLoading,
                   Effect.createStats cfg.statsCreateHtml]
                  ++ (if stats then [Effect.statsPanelSetup] else [])
  let inst2 := { inst1 with controllers := some [], cameraView := some () }
  let camTrace := [Effect.constructCamera, Effect.cameraInit]
  if camOk then
    let loop := sessionsLoop inst0.width inst0.height inst0.uuid img names 0 markerUrls
    { trace := preTrace ++ camTrace ++ loop.1,
      inst := { inst2 with controllers := some loop.2 },
      outcome := .fulfilled }
  else
    { trace := preTrace ++ camTrace ++ [Effect.consoleError],
      inst := inst2,
      outcome := .rejectedFalse }

end ARnft

/-- A concrete orchestrator state as it stands after a successful config-ready
run with no markers: Camera View constructed, session set present. -/
def sampleReadyInst : ARnftInst :=
  { width := 640, height := 480, configUrl := "c", uuid := "u",
    fps := .num 50, controllers := some [], cameraView := some (),
    appData := none }

/-- C3: the code at the failing input.  On a freshly constructed orchestrator
(config-ready has not fired, so `cameraView` is still `undefined`), `dispose()`
throws a `TypeError` from `this.cameraView.destroy()` instead of being the
no-throw idempotent no-op the claim requires. -/
theorem C3_dispose_fresh_throws :
    ARnft.dispose (ARnft.new 640 480 "config.json" "u") = .error JsError.typeError := rfl

/-- C10: `disposeNFT()` never throws, leaves every instance field of any
orchestrator (including a freshly constructed, never-initialized one)
unchanged, and issues only the global static `NFTWorker.stopNFT()` call;
its effect trace does not depend on the instance state at all. -/
theorem C10_disposeNFT_pure (s : ARnftInst) :
    ARnft.disposeNFT s = .ok (s, [Effect.stopNFT]) := rfl

/-- C8: when a Camera View exists (and whatever sessions exist), one call to
`dispose()` succeeds with the trace `[cameraDestroy, stopNFT]`, so the Camera
View destroy call and the global session stop call are each issued exactly
once. -/
theorem C8_dispose_stops_once (s : ARnftInst) (ws : List WorkerCtor)
    (hcam : s.cameraView = some ()) (_hctl : s.controllers = some ws) :
    ARnft.dispose s = .ok (s, [Effect.cameraDestroy, Effect.stopNFT]) ∧
    [Effect.cameraDestroy, Effect.stopNFT].count Effect.cameraDestroy = 1 ∧
    [Effect.cameraDestroy, Effect.stopNFT].count Effect.stopNFT = 1 := by
  refine ⟨?_, by decide, by decide⟩
  simp [ARnft.dispose, ARnft.disposeVideoStream, ARnft.disposeNFT, hcam,
    Bind.bind, Except.bind]

/-- C8 witness: a concrete orchestrator with a Camera View and an (empty)
session set. -/
theorem C8_dispose_stops_once_witness :
    ARnft.dispose sampleReadyInst =
      .ok (sampleReadyInst, [Effect.cameraDestroy, Effect.stopNFT]) ∧
    [Effect.cameraDestroy, Effect.stopNFT].count Effect.cameraDestroy = 1 ∧
    [Effect.cameraDestroy, Effect.stopNFT].count Effect.stopNFT = 1 :=
  C8_dispose_stops_once _ [] rfl rfl

/-- C5: for every rational v > 0, `setFPS(v)` stores `1000 / v` in `_fps`
and does not throw; for every JavaScript number v whatsoever (zero, negative,
infinite, NaN), `setFPS(v)` returns normally. -/
theorem C5_setFPS (s : ARnftInst) :
    (∀ v : ℚ, 0 < v →
      ARnft.setFPS s (.num v) = .ok { s with fps := .num (1000 / v) }) ∧
    (∀ v : JSNum, ∃ s2, ARnft.setFPS s v = .ok s2) := by
  constructor
  · intro v hv
    simp [ARnft.setFPS, jsDiv, hv.ne']
  · intro v
    exact ⟨_, rfl⟩

/-- C5 witness: `setFPS(4)` stores 250; `setFPS(0)` still returns normally. -/
theorem C5_setFPS_witness :
    ((0 : ℚ) < 4 ∧
      ARnft.setFPS (ARnft.new 1 1 "c" "u") (.num 4) =
        .ok { ARnft.new 1 1 "c" "u" with fps := .num (1000 / 4) }) ∧
    (∃ s2, ARnft.setFPS (ARnft.new 1 1 "c" "u") (.num 0) = .ok s2) :=
  ⟨⟨by norm_num, (C5_setFPS _).1 4 (by norm_num)⟩, (C5_setFPS _).2 (.num 0)⟩

/-- C4: `getEntities()` returns exactly the entity list of the most recent
`initWithEntities` call (the second of two sequential calls wins outright,
never a union), returns `undefined` when `initWithEntities` was never
called, and is unaffected by `init`. -/
theorem C4_getEntities_last_write_wins (w1 h1 w2 h2 : ℚ) (es1 es2 : List Entity)
    (c1 c2 u1 u2 : String) (st1 st2 : Bool) (ss : StaticSt) :
    ARnft.getEntities ((ARnft.initWithEntities w2 h2 es2 c2 st2 u2
        ((ARnft.initWithEntities w1 h1 es1 c1 st1 u1 ss).staticSt)).staticSt) = some es2 ∧
    ARnft.getEntities initialStatic = none ∧
    (∀ (w h : ℚ) (mus nas : List String) (c u : String) (st : Bool),
      ARnft.getEntities ((ARnft.init w h mus nas c st u ss).staticSt) =
        ARnft.getEntities ss) :=
  ⟨rfl, rfl, fun _ _ _ _ _ _ _ => rfl⟩

/-- C6: the promise returned by `init` / `initWithEntities` resolves to the
constructed orchestrator instance, and at that point the only effects issued
are the "initARnft" dispatch, the console log, the `getConfig` request and
the registration of the config-ready listener; none of the config-ready
substeps (container creation, camera construction or initialization, worker
construction, process calls, loop start) appear in that trace - they belong
to `listenerRun`, which runs only when the event later fires. -/
theorem C6_promise_resolves_before_substeps (w h : ℚ) (mus nas : List String)
    (es : List Entity) (c : String) (st : Bool) (u : String) (ss : StaticSt) :
    ((ARnft.init w h mus nas c st u ss).phaseA.result =
        .resolved (ARnft.init w h mus nas c st u ss).inst ∧
      (ARnft.init w h mus nas c st u ss).phaseA.trace =
        [Effect.dispatchInitEvent, Effect.consoleLog, Effect.getConfigRequest c,
         Effect.addConfigListener]) ∧
    ((ARnft.initWithEntities w h es c st u ss).phaseA.result =
        .resolved (ARnft.initWithEntities w h es c st u ss).inst ∧
      (ARnft.initWithEntities w h es c st u ss).phaseA.trace =
        [Effect.dispatchInitEvent, Effect.consoleLog, Effect.getConfigRequest c,
         Effect.addConfigListener]) :=
  ⟨⟨rfl, rfl⟩, ⟨rfl, rfl⟩⟩

/-- C2 counterexample: at the concrete call
`init(640, 480, ["markerA"], ["Box"], "config.json", false)` whose Camera
View initialization later rejects, the promise returned by `init` did not
reject with `false` (it had already resolved to the instance); only the
"no session constructed" half of the claim holds. -/
theorem C2_counterexample :
    (ARnft.init 640 480 ["markerA"] ["Box"] "config.json" false "u"
        initialStatic).phaseA.result ≠ PromiseResult.rejectedFalse ∧
    (ARnft.listenerRun
        (ARnft.init 640 480 ["markerA"] ["Box"] "config.json" false "u"
          initialStatic).inst
        ["markerA"] ["Box"] false ⟨"vs", "cp", false⟩ false "f").inst.controllers
      = some [] :=
  ⟨fun hcontra => PromiseResult.noConfusion hcontra, rfl⟩

/-- C2 amended: if Camera View initialization rejects, no Tracking Worker
Session is constructed (`controllers` stays `[]`) and the config-ready
listener's async callback rejects with `false` - an unhandled rejection;
the promise returned by `init` is unaffected, having already resolved to
the orchestrator instance before the event fired. -/
theorem C2_camera_rejection (w h : ℚ) (mus nas : List String) (c u img : String)
    (st : Bool) (ss : StaticSt) (cfg : ConfigData) :
    (ARnft.listenerRun (ARnft.init w h mus nas c st u ss).inst mus nas st cfg
        false img).inst.controllers = some [] ∧
    (ARnft.listenerRun (ARnft.init w h mus nas c st u ss).inst mus nas st cfg
        false img).outcome = ListenerOutcome.rejectedFalse ∧
    (ARnft.init w h mus nas c st u ss).phaseA.result =
      .resolved (ARnft.init w h mus nas c st u ss).inst :=
  ⟨rfl, rfl, rfl⟩

/-- C9: `initWithEntities(w, h, es, c, st)` performs the same initialization
as `init(w, h, es.map markerUrl, es.map name, c, st)` - same constructed
instance, same synchronous phase, same captured listener closure data, and
(pointwise in the config payload, camera outcome and frame) the same
config-ready listener behaviour - except that `initWithEntities` overwrites
the static entity list with its argument while `init` leaves it unchanged. -/
theorem C9_initWithEntities_refines_init (w h : ℚ) (es : List Entity)
    (c : String) (st : Bool) (u : String) (ss : StaticSt) :
    (ARnft.initWithEntities w h es c st u ss).inst =
      (ARnft.init w h (es.map (fun e => e.markerUrl)) (es.map (fun e => e.name))
        c st u ss).inst ∧
    (ARnft.initWithEntities w h es c st u ss).phaseA =
      (ARnft.init w h (es.map (fun e => e.markerUrl)) (es.map (fun e => e.name))
        c st u ss).phaseA ∧
    (ARnft.initWithEntities w h es c st u ss).listenerMarkerUrls =
      (ARnft.init w h (es.map (fun e => e.markerUrl)) (es.map (fun e => e.name))
        c st u ss).listenerMarkerUrls ∧
    (ARnft.initWithEntities w h es c st u ss).listenerNames =
      (ARnft.init w h (es.map (fun e => e.markerUrl)) (es.map (fun e => e.name))
        c st u ss).listenerNames ∧
    (ARnft.initWithEntities w h es c st u ss).listenerStats =
      (ARnft.init w h (es.map (fun e => e.markerUrl)) (es.map (fun e => e.name))
        c st u ss).listenerStats ∧
    (∀ (cfg : ConfigData) (camOk : Bool) (img : String),
      ARnft.listenerRun (ARnft.initWithEntities w h es c st u ss).inst
          (ARnft.initWithEntities w h es c st u ss).listenerMarkerUrls
          (ARnft.initWithEntities w h es c st u ss).listenerNames
          (ARnft.initWithEntities w h es c st u ss).listenerStats cfg camOk img =
        ARnft.listenerRun
          (ARnft.init w h (es.map (fun e => e.markerUrl))
            (es.map (fun e => e.name)) c st u ss).inst
          (ARnft.init w h (es.map (fun e => e.markerUrl))
            (es.map (fun e => e.name)) c st u ss).listenerMarkerUrls
          (ARnft.init w h (es.map (fun e => e.markerUrl))
            (es.map (fun e => e.name)) c st u ss).listenerNames
          (ARnft.init w h (es.map (fun e => e.markerUrl))
            (es.map (fun e => e.name)) c st u ss).listenerStats cfg camOk img) ∧
    (ARnft.initWithEntities w h es c st u ss).staticSt = ⟨some es⟩ ∧
    (ARnft.init w h (es.map (fun e => e.markerUrl)) (es.map (fun e => e.name))
      c st u ss).staticSt = ss :=
  ⟨rfl, rfl, rfl, rfl, rfl, fun _ _ _ => rfl, rfl, rfl⟩

/-- The `controllers` array built by the `forEach` loop has one entry per
marker url. -/
theorem sessionsLoop_length (w h : ℚ) (u img : String) (names : List String) :
    ∀ (mus : List String) (k : ℕ),
      ((ARnft.sessionsLoop w h u img names k mus).2).length = mus.length := by
  intro mus
  induction mus with
  | nil => intro k; rfl
  | cons m rest ih =>
      intro k
      simp [ARnft.sessionsLoop, ih (k + 1)]

/-- The j-th entry of the `controllers` array built by the `forEach` loop
starting at index k is the worker constructed from the j-th marker url,
the orchestrator dimensions and identity, and `names[k + j]`. -/
theorem sessionsLoop_get (w h : ℚ) (u img : String) (names : List String) :
    ∀ (mus : List String) (k j : ℕ) (mu : String), mus[j]? = some mu →
      ((ARnft.sessionsLoop w h u img names k mus).2)[j]? =
        some ⟨mu, w, h, u, names[k + j]?⟩ := by
  intro mus
  induction mus with
  | nil =>
      intro k j mu hmu
      simp at hmu
  | cons m rest ih =>
      intro k j mu hmu
      cases j with
      | zero =>
          simp at hmu
          subst hmu
          simp [ARnft.sessionsLoop]
      | succ j =>
          simp only [List.getElem?_cons_succ] at hmu
          have htail := ih (k + 1) j mu hmu
          have harith : k + (j + 1) = (k + 1) + j := by omega
          simp only [ARnft.sessionsLoop, List.getElem?_cons_succ, harith]
          exact htail

/-- The `forEach` loop starting at index k issues no `workerInit` and no
`loopStart` effect with a session index below k. -/
theorem sessionsLoop_no_low_index (w h : ℚ) (u img : String) (names : List String) :
    ∀ (mus : List String) (k j : ℕ), j < k →
      Effect.workerInit j ∉ (ARnft.sessionsLoop w h u img names k mus).1 ∧
      Effect.loopStart j ∉ (ARnft.sessionsLoop w h u img names k mus).1 := by
  intro mus
  induction mus with
  | nil =>
      intro k j hk
      simp [ARnft.sessionsLoop]
  | cons m rest ih =>
      intro k j hk
      have htail := ih (k + 1) j (by omega)
      constructor
      · simp [ARnft.sessionsLoop, ARnft.sessionStartupSeg, htail.1]
        omega
      · simp [ARnft.sessionsLoop, ARnft.sessionStartupSeg, htail.2]
        omega

/-- In the trace of the `forEach` loop starting at index k, for each j below
the number of marker urls the three effects `workerInit (k+j)`,
`workerProcess (k+j) img`, `loopStart (k+j)` occur adjacently, in that order,
and neither `workerInit (k+j)` nor `loopStart (k+j)` occurs anywhere else:
between a session's `initialize` call and the start of its loop lies exactly
its one priming `process` call. -/
theorem sessionsLoop_priming (w h : ℚ) (u img : String) (names : List String) :
    ∀ (mus : List String) (k j : ℕ), j < mus.length →
      ∃ pre post : List Effect,
        (ARnft.sessionsLoop w h u img names k mus).1 =
          pre ++ [Effect.workerInit (k + j), Effect.workerProcess (k + j) img,
                  Effect.loopStart (k + j)] ++ post ∧
        Effect.workerInit (k + j) ∉ pre ∧ Effect.workerInit (k + j) ∉ post ∧
        Effect.loopStart (k + j) ∉ pre ∧ Effect.loopStart (k + j) ∉ post := by
  intro mus
  induction mus with
  | nil =>
      intro k j hj
      simp at hj
  | cons m rest ih =>
      intro k j hj
      cases j with
      | zero =>
          have hnolow := sessionsLoop_no_low_index w h u img names rest (k + 1) k
            (by omega)
          refine ⟨[Effect.constructWorker ⟨m, w, h, u, names[k]?⟩],
            [Effect.workerProcess k img, Effect.scheduleFrame k] ++
              (ARnft.sessionsLoop w h u img names (k + 1) rest).1,
            ?_, ?_, ?_, ?_, ?_⟩
          · simp [ARnft.sessionsLoop, ARnft.sessionStartupSeg]
          · simp
          · simp [hnolow.1]
          · simp
          · simp [hnolow.2]
      | succ j =>
          have hj2 : j < rest.length := by
            simp at hj
            omega
          obtain ⟨pre, post, heq, h1, h2, h3, h4⟩ := ih (k + 1) j hj2
          have harith : k + (j + 1) = (k + 1) + j := by omega
          refine ⟨ARnft.sessionStartupSeg w h u img names k m ++ pre, post,
            ?_, ?_, ?_, ?_, ?_⟩
          · rw [harith]
            simp [ARnft.sessionsLoop, heq]
          · rw [harith]
            simp [ARnft.sessionStartupSeg, h1]
            omega
          · rw [harith]
            exact h2
          · rw [harith]
            simp [ARnft.sessionStartupSeg, h3]
            omega
          · rw [harith]
            exact h4

/-- C1: once the config-ready event fires (and Camera View initialization
succeeds), `init` and `initWithEntities` create exactly N Tracking Worker
Sessions, in input order: the i-th `NFTWorker` is constructed with the i-th
marker locator, the orchestrator's width, height and uuid, and the i-th
name. -/
theorem C1_sessions_per_marker (w h : ℚ) (mus nas : List String)
    (c u img : String) (st : Bool) (ss : StaticSt) (cfg : ConfigData) (N : ℕ)
    (hm : mus.length = N) (hn : nas.length = N) (_hN : 1 ≤ N) :
    (∃ ws : List WorkerCtor,
      (ARnft.listenerRun (ARnft.init w h mus nas c st u ss).inst mus nas st cfg
          true img).inst.controllers = some ws ∧
      ws.length = N ∧
      ∀ i, i < N → ∃ mu na, mus[i]? = some mu ∧ nas[i]? = some na ∧
        ws[i]? = some ⟨mu, w, h, u, some na⟩) ∧
    (∀ es : List Entity, es.length = N →
      ∃ ws : List WorkerCtor,
        (ARnft.listenerRun (ARnft.initWithEntities w h es c st u ss).inst
            (ARnft.initWithEntities w h es c st u ss).listenerMarkerUrls
            (ARnft.initWithEntities w h es c st u ss).listenerNames st cfg
            true img).inst.controllers = some ws ∧
        ws.length = N ∧
        ∀ i, i < N → ∃ e, es[i]? = some e ∧
          ws[i]? = some ⟨e.markerUrl, w, h, u, some e.name⟩) := by
  constructor
  · refine ⟨(ARnft.sessionsLoop w h u img nas 0 mus).2, rfl, ?_, ?_⟩
    · rw [sessionsLoop_length]
      exact hm
    · intro i hi
      have him : i < mus.length := by omega
      have hin : i < nas.length := by omega
      refine ⟨mus[i], nas[i], List.getElem?_eq_getElem him,
        List.getElem?_eq_getElem hin, ?_⟩
      have := sessionsLoop_get w h u img nas mus 0 i mus[i]
        (List.getElem?_eq_getElem him)
      rw [Nat.zero_add, List.getElem?_eq_getElem hin] at this
      exact this
  · intro es hes
    refine ⟨_, rfl, ?_, ?_⟩
    · rw [sessionsLoop_length]
      show (es.map (fun e => e.markerUrl)).length = N
      rw [List.length_map]
      exact hes
    · intro i hi
      have hie : i < es.length := by omega
      refine ⟨es[i], List.getElem?_eq_getElem hie, ?_⟩
      have hmu : (es.map (fun e => e.markerUrl))[i]? = some (es[i].markerUrl) := by
        simp [List.getElem?_eq_getElem, hie]
      have := sessionsLoop_get w h u img (es.map (fun e => e.name))
        (es.map (fun e => e.markerUrl)) 0 i (es[i].markerUrl) hmu
      rw [Nat.zero_add] at this
      have hna : (es.map (fun e => e.name))[i]? = some (es[i].name) := by
        simp [List.getElem?_eq_getElem, hie]
      rw [hna] at this
      exact this

/-- C7: for every created session i, the trace of the config-ready run shows
the three effects `workerInit i`, `workerProcess i`, `loopStart i` adjacent
and in that order, with `workerInit i` and `loopStart i` occurring nowhere
else: immediately after the session's `initialize` call comes exactly one
priming `process` call with the current video frame, and only then is the
session's self-rescheduling loop started (the loop body itself re-processes
the frame and schedules the next tick after `loopStart i`). -/
theorem C7_priming_before_loop (w h : ℚ) (mus nas : List String)
    (c u img : String) (st : Bool) (ss : StaticSt) (cfg : ConfigData) (i : ℕ)
    (hi : i < mus.length) :
    ∃ pre post : List Effect,
      (ARnft.listenerRun (ARnft.init w h mus nas c st u ss).inst mus nas st cfg
          true img).trace =
        pre ++ [Effect.workerInit i, Effect.workerProcess i img,
                Effect.loopStart i] ++ post ∧
      Effect.workerInit i ∉ pre ∧ Effect.workerInit i ∉ post ∧
      Effect.loopStart i ∉ pre ∧ Effect.loopStart i ∉ post := by
  obtain ⟨pre, post, heq, h1, h2, h3, h4⟩ :=
    sessionsLoop_priming w h u img nas mus 0 i hi
  rw [Nat.zero_add] at heq h1 h2 h3 h4
  refine ⟨[Effect.createContainer, Effect.createLoading,
      Effect.createStats cfg.statsCreateHtml] ++
      (if st then [Effect.statsPanelSetup] else []) ++
      [Effect.constructCamera, Effect.cameraInit] ++ pre, post,
    ?_, ?_, h2, ?_, h4⟩
  · cases st <;>
      simp [ARnft.listenerRun, ARnft.init, ARnft.new, heq]
  · cases st <;> simp [h1]
  · cases st <;> simp [h3]

/-- C1 witness: the end-to-end scenario
`init(640, 480, ["markerA"], ["Box"], "config.json", false)` with one marker
descriptor. -/
theorem C1_sessions_per_marker_witness :
    ((["markerA"] : List String).length = 1 ∧
     (["Box"] : List String).length = 1 ∧ 1 ≤ 1) ∧
    ((∃ ws : List WorkerCtor,
      (ARnft.listenerRun (ARnft.init 640 480 ["markerA"] ["Box"] "config.json"
          false "u" initialStatic).inst ["markerA"] ["Box"] false
          ⟨"vs", "cp", false⟩ true "f").inst.controllers = some ws ∧
      ws.length = 1 ∧
      ∀ i, i < 1 → ∃ mu na, (["markerA"] : List String)[i]? = some mu ∧
        (["Box"] : List String)[i]? = some na ∧
        ws[i]? = some ⟨mu, 640, 480, "u", some na⟩) ∧
    (∀ es : List Entity, es.length = 1 →
      ∃ ws : List WorkerCtor,
        (ARnft.listenerRun (ARnft.initWithEntities 640 480 es "config.json"
            false "u" initialStatic).inst
            (ARnft.initWithEntities 640 480 es "config.json" false "u"
              initialStatic).listenerMarkerUrls
            (ARnft.initWithEntities 640 480 es "config.json" false "u"
              initialStatic).listenerNames false ⟨"vs", "cp", false⟩
            true "f").inst.controllers = some ws ∧
        ws.length = 1 ∧
        ∀ i, i < 1 → ∃ e, es[i]? = some e ∧
          ws[i]? = some ⟨e.markerUrl, 640, 480, "u", some e.name⟩)) :=
  ⟨⟨rfl, rfl, le_refl 1⟩,
    C1_sessions_per_marker 640 480 ["markerA"] ["Box"] "config.json" "u" "f"
      false initialStatic ⟨"vs", "cp", false⟩ 1 rfl rfl (le_refl 1)⟩

/-- C7 witness: the same one-marker scenario, at session index 0. -/
theorem C7_priming_before_loop_witness :
    0 < (["markerA"] : List String).length ∧
    (∃ pre post : List Effect,
      (ARnft.listenerRun (ARnft.init 640 480 ["markerA"] ["Box"] "config.json"
          false "u" initialStatic).inst ["markerA"] ["Box"] false
          ⟨"vs", "cp", false⟩ true "f").trace =
        pre ++ [Effect.workerInit 0, Effect.workerProcess 0 "f",
                Effect.loopStart 0] ++ post ∧
      Effect.workerInit 0 ∉ pre ∧ Effect.workerInit 0 ∉ post ∧
      Effect.loopStart 0 ∉ pre ∧ Effect.loopStart 0 ∉ post) :=
  ⟨by decide,
    C7_priming_before_loop 640 480 ["markerA"] ["Box"] "config.json" "u" "f"
      false initialStatic ⟨"vs", "cp", false⟩ 0 (by decide)⟩
